import Mathlib

/-!
# Verification of the session coordinator (`src/lib/context.js` and helpers)

A shallow embedding of the session coordinator of this repository: the tab
registry, the modal-state list, the single-flight browser-context promise,
the dialog race, state capture/restore, and the network quiescence waiter.
JavaScript objects are identified by numeric ids; promises are identified by
numeric ids with explicit resolved/rejected bookkeeping; `async` control flow
is modelled by explicit state passing and, where events interleave, by a fold
of a step function over an event trace.
-/

namespace PlaywrightMCP

/-- JS array indexing `arr[i]` where `i` may be negative: a negative index
yields `undefined` (here `none`). -/
def jsIndex (l : List α) (i : Int) : Option α :=
  if i < 0 then none else l.get? i.toNat

/-! ## Tab registry (`context.js`: `_tabs`, `_currentTab`, `_modalStates`) -/

/-- One entry of `_modalStates`: `{ type, description, tab }` as pushed by
`setModalState`. Tabs are identified by numeric id. -/
structure ModalEntry where
  type : String
  description : String
  tab : Nat
deriving DecidableEq, Repr

/-- The registry slice of the `Context` class state that
`_onPageClosed` reads and writes. `handleOpen` models whether
`_browserContextPromise` is set (the final `if (!this._tabs.length) void this.close()`
tears it down). -/
structure TabRegistry where
  tabs : List Nat
  currentTab : Option Nat
  modalStates : List ModalEntry
  handleOpen : Bool
deriving DecidableEq, Repr

/-- `Context.close()` as far as the registry state is concerned: clears the
memoized browser-context reference (the rest is browser-engine I/O). -/
def TabRegistry.closeHandle (s : TabRegistry) : TabRegistry :=
  { s with handleOpen := false }

/-- `Context._onPageClosed(tab)`:
```js
this._modalStates = this._modalStates.filter(state => state.tab !== tab);
const index = this._tabs.indexOf(tab);
if (index === -1) return;
this._tabs.splice(index, 1);
if (this._currentTab === tab)
  this._currentTab = this._tabs[Math.min(index, this._tabs.length - 1)];
if (!this._tabs.length) void this.close();
```
-/
def onPageClosed (s : TabRegistry) (closed : Nat) : TabRegistry :=
  let s := { s with modalStates := s.modalStates.filter (fun st => st.tab ≠ closed) }
  match s.tabs.indexOf? closed with
  | none => s
  | some index =>
    let tabs := s.tabs.eraseIdx index
    let current :=
      if s.currentTab = some closed then
        jsIndex tabs (min (index : Int) ((tabs.length : Int) - 1))
      else s.currentTab
    let s := { s with tabs := tabs, currentTab := current }
    if tabs.length = 0 then s.closeHandle else s

/-- `Context._onPageCreated(page)`: push the tab, make it current if there
was none. -/
def onPageCreated (s : TabRegistry) (id : Nat) : TabRegistry :=
  let s := { s with tabs := s.tabs ++ [id] }
  if s.currentTab = none then { s with currentTab := some id } else s

/-! ## `selectTab` (C9) -/

/-- Result of `selectTab`: the post-call state plus whether the call threw
(`TypeError` from dereferencing `undefined.page`). -/
inductive JsOutcome where
  | ok
  | threw (msg : String)
deriving DecidableEq, Repr

/-- `Context.selectTab(index)`:
```js
this._currentTab = this._tabs[index - 1];
await this._currentTab.page.bringToFront();
```
The assignment happens first; if `index - 1` is out of range the lookup
yields `undefined`, the field is overwritten with it, and only then the
`.page` dereference throws. `index` is a JS number, so it may be `0` or
negative. -/
def selectTab (s : TabRegistry) (index : Int) : TabRegistry × JsOutcome :=
  let s := { s with currentTab := jsIndex s.tabs (index - 1) }
  match s.currentTab with
  | none => (s, .threw "Cannot read properties of undefined")
  | some _ => (s, .ok)

/-! ## `waitForTimeout` (C10) -/

/-- What `Context.waitForTimeout(time)` actually awaits: a process-side
`setTimeout(f, time)`, or a fixed in-page `setTimeout(f, 1000)` run through
`page.evaluate`. -/
inductive WaitAction where
  | processWait (ms : Int)
  | inPageWait (ms : Int)
deriving DecidableEq, Repr

/-- `Context._javaScriptBlocked()`: some modal state of type `'dialog'`. -/
def javaScriptBlocked (modalStates : List ModalEntry) : Bool :=
  modalStates.any (fun st => st.type = "dialog")

/-- `Context.waitForTimeout(time)`:
```js
if (!this._currentTab || this._javaScriptBlocked()) {
  await new Promise(f => setTimeout(f, time));
  return;
}
await callOnPageNoTrace(this._currentTab.page, page => {
  return page.evaluate(() => new Promise(f => setTimeout(f, 1000)));
});
```
-/
def waitForTimeout (s : TabRegistry) (time : Int) : WaitAction :=
  if s.currentTab = none ∨ javaScriptBlocked s.modalStates then
    .processWait time
  else
    .inPageWait 1000

/-! ## Single-flight browser-context creation (`_ensureBrowserContext`, C1) -/

/-- The slice of `Context` state driving `_ensureBrowserContext`. Creation
futures (`_setupBrowserContext()` promises) are identified by numeric ids;
`launches` counts how many underlying creations (`_setupBrowserContext`
calls, hence launch/connect attempts) have been started. -/
structure HandleState where
  browserContextPromise : Option Nat
  nextId : Nat
  launches : Nat
deriving DecidableEq, Repr

/-- `Context._ensureBrowserContext()`:
```js
if (!this._browserContextPromise) {
  this._browserContextPromise = this._setupBrowserContext();
  const currentPromise = this._browserContextPromise;
  this._browserContextPromise.catch(error => { ... });
}
return this._browserContextPromise;
```
Returns the promise handed to the caller and the updated state. Since the
method body is synchronous up to the `return`, concurrent callers are a
sequence of these calls. -/
def ensureBrowserContext (s : HandleState) : Nat × HandleState :=
  match s.browserContextPromise with
  | some p => (p, s)
  | none =>
    (s.nextId,
     { browserContextPromise := some s.nextId
       nextId := s.nextId + 1
       launches := s.launches + 1 })

/-- The rejection handler installed by `_ensureBrowserContext` on the
creation future `p` it just memoized:
```js
this._browserContextPromise.catch(error => {
  if (this._browserContextPromise === currentPromise)
    this._browserContextPromise = undefined;
  throw error;
});
```
Runs when future `p` fails; clears the memo only if it still holds `p`. -/
def creationFailed (s : HandleState) (p : Nat) : HandleState :=
  if s.browserContextPromise = some p then { s with browserContextPromise := none } else s

/-- `n` further calls to `_ensureBrowserContext`, collecting the promise
each caller receives. -/
def ensureCalls (s : HandleState) : Nat → List Nat × HandleState
  | 0 => ([], s)
  | n + 1 =>
    let (p, s) := ensureBrowserContext s
    let (ps, s) := ensureCalls s n
    (p :: ps, s)

/-! ## Action race against modal dialogs (`_raceAgainstModalDialogs`,
`dialogShown`, C2) -/

/-- The `_pendingAction` slot: `{ dialogShown: new ManualPromise() }`, with
the promise modelled by its resolved flag. -/
structure PendingAction where
  dialogShownResolved : Bool
deriving DecidableEq, Repr

/-- The slice of `Context` state touched by `_raceAgainstModalDialogs` and
`dialogShown`. -/
structure RaceState where
  modalStates : List ModalEntry
  pendingAction : Option PendingAction
deriving DecidableEq, Repr

/-- `Context.setModalState(modalState, inTab)`: push `{ ...modalState, tab }`. -/
def setModalState (s : RaceState) (type description : String) (inTab : Nat) : RaceState :=
  { s with modalStates := s.modalStates ++ [⟨type, description, inTab⟩] }

/-- `Context.dialogShown(tab, dialog)`:
```js
this.setModalState({ type: 'dialog',
  description: `"${dialog.type()}" dialog with message "${dialog.message()}"`,
  dialog }, tab);
this._pendingAction?.dialogShown.resolve();
```
-/
def dialogShown (s : RaceState) (tab : Nat) (dtype dmsg : String) : RaceState :=
  let s := setModalState s "dialog"
    ("\"" ++ dtype ++ "\" dialog with message \"" ++ dmsg ++ "\"") tab
  match s.pendingAction with
  | some _ => { s with pendingAction := some ⟨true⟩ }
  | none => s

/-- A dialog reported by the engine while the raced action is in flight. -/
structure DialogEvent where
  tab : Nat
  dtype : String
  dmsg : String
deriving DecidableEq, Repr

/-- How the `Promise.race` settles: the action resolved, the action
rejected, or `dialogShown` resolved the pending signal first. -/
inductive RaceOutcome where
  | actionResolved
  | actionRejected
  | dialogWon
deriving DecidableEq, Repr

/-- `Context._raceAgainstModalDialogs(action)`:
```js
this._pendingAction = { dialogShown: new ManualPromise() };
let result;
try {
  await Promise.race([action().then(r => (result = r)), this._pendingAction.dialogShown]);
} finally {
  this._pendingAction = undefined;
}
return result;
```
`raceInFlight` is the state after the slot is populated and the dialogs the
engine reports while the race is in flight (`events`) have been delivered
through `dialogShown`. -/
def raceInFlight (s : RaceState) (events : List DialogEvent) : RaceState :=
  events.foldl (fun st e => dialogShown st e.tab e.dtype e.dmsg)
    { s with pendingAction := some ⟨false⟩ }

/-- The whole of `_raceAgainstModalDialogs`: the in-flight race above,
then the `finally` clearing the slot, whatever `outcome` the race had. -/
def raceAgainstModalDialogs (s : RaceState) (events : List DialogEvent)
    (_outcome : RaceOutcome) : RaceState :=
  { raceInFlight s events with pendingAction := none }

/-- The `ModalState` entry `dialogShown` pushes for a reported dialog. -/
def dialogEntry (e : DialogEvent) : ModalEntry :=
  ⟨"dialog", "\"" ++ e.dtype ++ "\" dialog with message \"" ++ e.dmsg ++ "\"", e.tab⟩

/-! ## Saved session state (`_captureCurrentState`, `_restoreState`; C5, C6) -/

/-- One entry of `state.tabs`: `{ url, sessionStorage }`. Session storage is
a string-keyed record. -/
structure SavedTab where
  url : String
  sessionStorage : List (String × String)
deriving DecidableEq, Repr

/-- The `SavedState` record built by `_captureCurrentState`:
`{ storageState, sessionStorage, tabs, currentTabIndex }`. `storageState`
is an opaque blob (`none` models `null`); `sessionStorage` is keyed by
hostname. -/
structure SavedState where
  storageState : Option String
  sessionStorage : List (String × List (String × String))
  tabs : List SavedTab
  currentTabIndex : Nat
deriving DecidableEq, Repr

/-- The outcomes of the engine calls `_captureCurrentState` performs:
whether `await this._browserContextPromise` produced a context (it throws
when the promise is missing or rejected), what `browserContext.storageState`
returned (`none` models a throw), and for each open tab, in registry order,
`some (url, sessionStorage)` on success or `none` when reading that tab
threw. -/
structure CaptureEnv where
  contextOk : Bool
  storageStateResult : Option String
  tabResults : List (Option (String × List (String × String)))

/-- The snapshot `_captureCurrentState` assembles once the context await
succeeded: `storageState` as read (or `null` after its failure was caught),
the `sessionStorage` field it initializes to `{}` and never fills, one tab
entry per open tab — the placeholder `{ url: 'about:blank',
sessionStorage: {} }` for a tab whose reads threw — and `currentTabIndex`,
updated only inside a tab's `try` after that tab's reads succeeded. -/
def captureBody (env : CaptureEnv) (currentIdx : Option Nat) : SavedState :=
  { storageState := env.storageStateResult
    sessionStorage := []
    tabs := env.tabResults.map fun r =>
      match r with
      | some (url, ss) => SavedTab.mk url ss
      | none => SavedTab.mk "about:blank" []
    currentTabIndex := env.tabResults.enum.foldl
      (fun acc p =>
        match p.2 with
        | some _ => if currentIdx = some p.1 then p.1 else acc
        | none => acc) 0 }

/-- `Context._captureCurrentState()`. `currentIdx` is the position of
`_currentTab` in `_tabs` (if any). Returns `none` exactly when the outer
`catch` fires, i.e. when awaiting the context promise fails. -/
def captureCurrentState (env : CaptureEnv) (currentIdx : Option Nat) : Option SavedState :=
  if !env.contextOk then none
  else some (captureBody env currentIdx)

/-- The slice of `Context` state `_restoreState` reads and writes: the tab
registry plus the pending `_savedState` snapshot. -/
structure RestoreCoord where
  tabs : List Nat
  currentTab : Option Nat
  savedState : Option SavedState
deriving Repr

/-- Outcomes of the engine calls `_restoreState` performs: whether
`addInitScript` throws, how many pages `browserContext.pages()` reports,
whether the `goto` for saved tab `i` throws, whether `newPage` for saved
tab `i` throws, and whether the final `bringToFront` throws. -/
structure RestoreEnv where
  initScriptFails : Bool
  existingPages : Nat
  gotoFails : Nat → Bool
  newPageFails : Nat → Bool
  bringToFrontFails : Bool

/-- Engine calls performed by `_restoreState`, in order. -/
inductive RestoreAction where
  | addInitScript
  | gotoPage (savedTabIdx : Nat) (url : String)
  | newPage (savedTabIdx : Nat)
  | replaySessionStorage (savedTabIdx : Nat)
  | bringToFront (tabIdx : Nat)
deriving DecidableEq, Repr

/-- `_restoreSessionStorageForPage(page, sessionStorage)`: returns early on
an empty record, otherwise evaluates in the page (failure swallowed). -/
def restoreSessionStorageActions (savedTabIdx : Nat) (ss : List (String × String)) :
    List RestoreAction :=
  if ss.isEmpty then [] else [.replaySessionStorage savedTabIdx]

/-- The loop `for (let i = 1; i < this._savedState.tabs.length; i++)` of
`_restoreState`: try `newPage`, then `goto` unless the URL is `about:blank`,
then replay session storage; each iteration's failures are caught
individually. New pages fire the `page` event, appending a tab via
`_onPageCreated`. -/
def restoreTabsLoop (env : RestoreEnv) (rest : List SavedTab) (c : RestoreCoord)
    (nextPageId : Nat) : RestoreCoord × List RestoreAction :=
  let acc := rest.enum.foldl
    (fun (acc : RestoreCoord × List RestoreAction × Nat) p =>
      let (c, acts, fresh) := acc
      let i := p.1 + 1
      let tabData := p.2
      if env.newPageFails i then (c, acts, fresh)
      else
        let c := { c with
          tabs := c.tabs ++ [fresh]
          currentTab := if c.currentTab = none then some fresh else c.currentTab }
        let acts := acts ++ [RestoreAction.newPage i]
        if tabData.url = "about:blank" then (c, acts, fresh + 1)
        else if env.gotoFails i then (c, acts ++ [.gotoPage i tabData.url], fresh + 1)
        else
          (c, acts ++ [.gotoPage i tabData.url] ++
            restoreSessionStorageActions i tabData.sessionStorage, fresh + 1))
    (c, ([] : List RestoreAction), nextPageId)
  (acc.1, acc.2.1)

/-- `Context._restoreState(browserContext)`:
```js
if (!this._savedState) return;
try {
  if (Object.keys(this._savedState.sessionStorage).length > 0)
    await browserContext.addInitScript(..., this._savedState.sessionStorage);
  if (this._savedState.tabs.length > 0) {
    const firstTab = this._savedState.tabs[0];
    const existingPages = browserContext.pages();
    if (existingPages.length > 0 && firstTab.url !== 'about:blank') {
      try { await existingPages[0].goto(firstTab.url);
            await this._restoreSessionStorageForPage(...); } catch {}
    }
    for (let i = 1; i < this._savedState.tabs.length; i++) { try { ... } catch {} }
    if (this._savedState.currentTabIndex >= 0 &&
        this._savedState.currentTabIndex < this._tabs.length) {
      try { await this.selectTab(this._savedState.currentTabIndex + 1); } catch {}
    }
  }
} catch {} finally { this._savedState = undefined; }
```
`nextPageId` supplies fresh ids for pages created by the loop. Returns the
updated coordinator state and the engine calls performed. -/
def restoreStateTry (c : RestoreCoord) (saved : SavedState) (env : RestoreEnv)
    (nextPageId : Nat) : RestoreCoord × List RestoreAction :=
  if !saved.sessionStorage.isEmpty && env.initScriptFails then
    (c, [.addInitScript])
  else
    let acts0 : List RestoreAction :=
      if saved.sessionStorage.isEmpty then [] else [.addInitScript]
    match saved.tabs with
    | [] => (c, acts0)
    | firstTab :: rest =>
      let r1 : RestoreCoord × List RestoreAction :=
        if 0 < env.existingPages ∧ firstTab.url ≠ "about:blank" then
          if env.gotoFails 0 then (c, [RestoreAction.gotoPage 0 firstTab.url])
          else (c, [RestoreAction.gotoPage 0 firstTab.url] ++
                   restoreSessionStorageActions 0 firstTab.sessionStorage)
        else (c, [])
      let r2 := restoreTabsLoop env rest r1.1 nextPageId
      let c2 := r2.1
      let r3 : RestoreCoord × List RestoreAction :=
        if saved.currentTabIndex < c2.tabs.length then
          ({ c2 with currentTab := jsIndex c2.tabs (saved.currentTabIndex : Int) },
           [RestoreAction.bringToFront saved.currentTabIndex])
        else (c2, [])
      (r3.1, acts0 ++ r1.2 ++ r2.2 ++ r3.2)

/-- The early return plus the `finally { this._savedState = undefined; }`
around the try body above: whatever the body did (or failed to do), the
pending snapshot slot is cleared. -/
def restoreState (c : RestoreCoord) (env : RestoreEnv) (nextPageId : Nat) :
    RestoreCoord × List RestoreAction :=
  match c.savedState with
  | none => (c, [])
  | some saved =>
    let r := restoreStateTry c saved env nextPageId
    ({ r.1 with savedState := none }, r.2)

/-! ## Browser-context creation (`_createBrowserContext`, C7) -/

/-- A JavaScript value in a config slot: endpoints come from user
configuration and may hold a string, a number, a boolean, `null`,
`undefined`, or some other object. -/
inductive JSVal where
  | str (s : String)
  | num (n : Int)
  | boolean (b : Bool)
  | nullv
  | undefinedv
  | objv
deriving DecidableEq, Repr

/-- JS truthiness. -/
def JSVal.truthy : JSVal → Bool
  | .str s => s ≠ ""
  | .num n => n ≠ 0
  | .boolean b => b
  | .nullv => false
  | .undefinedv => false
  | .objv => true

/-- `typeof v === 'string'`. -/
def JSVal.isStr : JSVal → Bool
  | .str _ => true
  | _ => false

/-- The config slice `_createBrowserContext` consults to pick a creation
strategy. -/
structure BrowserCfg where
  remoteEndpoint : JSVal
  cdpEndpoint : JSVal
  isolated : Bool
deriving DecidableEq, Repr

/-- The whitespace characters `String.prototype.trim` strips (the ASCII
core of the WhiteSpace/LineTerminator productions). -/
def isJsWhitespace (c : Char) : Bool :=
  c = ' ' || c = '\t' || c = '\n' || c = '\r' || c = '\x0b' || c = '\x0c'

/-- Executable model of `String.prototype.trim()`. -/
def jsTrim (s : String) : String :=
  ⟨((s.toList.dropWhile isJsWhitespace).reverse.dropWhile isJsWhitespace).reverse⟩

/-- Characters allowed in a URL scheme after the first. -/
def isSchemeChar (c : Char) : Bool := c.isAlphanum || c = '+' || c = '-' || c = '.'

/-- Model of WHATWG `new URL(s)` succeeding on an absolute URL string: an
ASCII-letter-initial scheme followed by `:`. (The real parser imposes more
on special schemes; this model is only consulted where the code calls
`new URL`, and every string it rejects is rejected by the real parser too
when it lacks a scheme.) -/
def hasURLScheme (s : String) : Bool :=
  match s.toList with
  | [] => false
  | c :: rest => c.isAlpha && (rest.takeWhile (· ≠ ':')).all isSchemeChar && rest.any (· = ':')

/-- A well-formed endpoint value: a string that parses as a URL. -/
def wellFormedEndpoint : JSVal → Bool
  | .str s => hasURLScheme s
  | _ => false

/-- What `_createBrowserContext` does first: throw before any connection, or
attempt a particular connect/launch. -/
inductive CreateResult where
  | error (msg : String)
  | connectRemote (url : String)
  | connectCDP (endpoint : String)
  | newContextIsolated
  | launchPersistent
deriving DecidableEq, Repr

/-- `Context._createBrowserContext()` up to its first engine call:
```js
if (this.config.browser?.remoteEndpoint) {
  if (typeof this.config.browser.remoteEndpoint !== 'string' ||
      this.config.browser.remoteEndpoint.trim() === '')
    throw new Error(`Invalid remote endpoint: ...`);
  const url = new URL(this.config.browser.remoteEndpoint);   // throws on bad URL
  ...
  const browser = await playwright[...].connect(String(url));
  ...
}
if (this.config.browser?.cdpEndpoint) {
  if (typeof this.config.browser.cdpEndpoint !== 'string' ||
      this.config.browser.cdpEndpoint.trim() === '')
    throw new Error(`Invalid CDP endpoint: ...`);
  const browser = await playwright.chromium.connectOverCDP(this.config.browser.cdpEndpoint);
  ...
}
return this.config.browser?.isolated ? createIsolatedContext(...) : launchPersistentContext(...);
```
-/
def createBrowserContext (cfg : BrowserCfg) : CreateResult :=
  if cfg.remoteEndpoint.truthy then
    match cfg.remoteEndpoint with
    | .str s =>
      if jsTrim s = "" then .error "Invalid remote endpoint"
      else if hasURLScheme s then .connectRemote s
      else .error "Invalid URL"
    | _ => .error "Invalid remote endpoint"
  else if cfg.cdpEndpoint.truthy then
    match cfg.cdpEndpoint with
    | .str s => if jsTrim s = "" then .error "Invalid CDP endpoint" else .connectCDP s
    | _ => .error "Invalid CDP endpoint"
  else if cfg.isolated then .newContextIsolated
  else .launchPersistent

/-! ## Tab listing (`listTabsMarkdown`, C8) -/

/-- A tab as `listTabsMarkdown` sees it: identity plus the `title()` and
`page.url()` it renders. -/
structure TabInfo where
  id : Nat
  title : String
  url : String
deriving DecidableEq, Repr

/-- The per-tab line:
`` lines.push(`- ${i + 1}:${current} [${title}] (${url})`) `` where
`current` is `' (current)'` for the current tab and `''` otherwise. -/
def renderTabLine (i : Nat) (tab : TabInfo) (isCurrent : Bool) : String :=
  "- " ++ Nat.repr (i + 1) ++ ":" ++ (if isCurrent then " (current)" else "") ++
    " [" ++ tab.title ++ "] (" ++ tab.url ++ ")"

/-- The `lines` array built by `listTabsMarkdown` on a non-empty registry:
the `'### Open tabs'` header then one line per tab. -/
def listTabsLines (tabs : List TabInfo) (current : Option Nat) : List String :=
  "### Open tabs" :: tabs.enum.map fun p => renderTabLine p.1 p.2 (current = some p.2.id)

/-- `Array.prototype.join('\n')`. -/
def joinLines : List String → String
  | [] => ""
  | [a] => a
  | a :: rest => a ++ "\n" ++ joinLines rest

/-- `Context.listTabsMarkdown()`:
```js
if (!this._tabs.length) return '### No tabs open';
const lines = ['### Open tabs'];
for (let i = 0; i < this._tabs.length; i++) { ... lines.push(`- ${i + 1}:...`); }
return lines.join('\n');
```
-/
def listTabsMarkdown (tabs : List TabInfo) (current : Option Nat) : String :=
  if tabs.length = 0 then "### No tabs open"
  else joinLines (listTabsLines tabs current)

/-- The number of lines of a rendered string: newline count plus one. -/
def numLines (s : String) : Nat := s.toList.count '\n' + 1

/-! ## Network quiescence waiter (`waitForCompletion` in `tools/utils`, C4)

The function installs three page listeners (`request`, `requestfinished`,
`framenavigated`) and a 10s timer, runs the wrapped action, then awaits a
barrier promise resolved by one of: the in-flight request set draining to
empty, the load event after a top-level navigation, or the timer. The
engine-driven part is modelled as a step machine over an event trace. -/

/-- An engine event delivered while `waitForCompletion` is in flight.
`loadStateDone` is the `tab.waitForLoadState('load')` continuation firing. -/
inductive WaiterEvent where
  | requestStarted (id : Nat)
  | requestFinished (id : Nat)
  | frameNavigated (isTopFrame : Bool)
  | timeoutFired
  | loadStateDone
deriving DecidableEq, Repr

/-- Which of the three paths resolved the barrier. -/
inductive ResolveReason where
  | drain
  | navigation
  | timeout
deriving DecidableEq, Repr

/-- The state of one `waitForCompletion` invocation. `requests` is the
`requests` Set (insertion order, no duplicates); `listenersActive` is
whether the three `tab.page.on` listeners are registered; `timerActive`
whether the `setTimeout` is pending; `waitingForLoad` whether a
`waitForLoadState('load').then(waitCallback)` continuation is pending;
`requestsAtResolve` snapshots the request set at the moment the barrier was
first resolved. -/
structure WaiterState where
  requests : List Nat
  frameNavigated : Bool
  listenersActive : Bool
  timerActive : Bool
  waitingForLoad : Bool
  barrierResolved : Bool
  resolveReason : Option ResolveReason
  requestsAtResolve : Option (List Nat)
deriving DecidableEq, Repr

/-- `waitCallback()`: resolving an already-resolved promise is a no-op. -/
def WaiterState.resolve (s : WaiterState) (reason : ResolveReason) : WaiterState :=
  if s.barrierResolved then s
  else { s with
    barrierResolved := true
    resolveReason := some reason
    requestsAtResolve := some s.requests }

/-- `dispose()`: deregister the three listeners and `clearTimeout`. -/
def WaiterState.dispose (s : WaiterState) : WaiterState :=
  { s with listenersActive := false, timerActive := false }

/-- `requests.add(request)` (Set semantics). -/
def setAdd (l : List Nat) (id : Nat) : List Nat := if id ∈ l then l else l ++ [id]

/-- One engine event against the waiter state. Page listeners only run while
registered; the timer only fires while pending; the load continuation runs
regardless of listener registration (it is a promise continuation, not a
page listener). Mirrors `requestListener`, `requestFinishedListener`,
`frameNavigateListener`, `onTimeout` and the `waitForLoadState` chain. -/
def waiterStep (s : WaiterState) : WaiterEvent → WaiterState
  | .requestStarted id =>
    if s.listenersActive then { s with requests := setAdd s.requests id } else s
  | .requestFinished id =>
    if s.listenersActive then
      let s := { s with requests := s.requests.erase id }
      if s.requests.isEmpty then s.resolve .drain else s
    else s
  | .frameNavigated isTop =>
    if s.listenersActive && isTop then
      ({ s with frameNavigated := true, waitingForLoad := true }).dispose
    else s
  | .timeoutFired =>
    if s.timerActive then s.dispose.resolve .timeout else s
  | .loadStateDone =>
    if s.waitingForLoad then ({ s with waitingForLoad := false }).resolve .navigation else s

/-- The state right after the listeners and the timer are installed. -/
def waiterInit : WaiterState :=
  { requests := []
    frameNavigated := false
    listenersActive := true
    timerActive := true
    waitingForLoad := false
    barrierResolved := false
    resolveReason := none
    requestsAtResolve := none }

/-- A whole `waitForCompletion` run: install listeners and timer, deliver
the events that interleave with the wrapped action (`during`), then either
the action throws (skip straight to `finally`) or the post-action check
```js
if (!requests.size && !frameNavigated) waitCallback();
await waitBarrier;
```
runs, further events (`after`) are delivered while awaiting the barrier,
and `finally { dispose(); }` runs on exit. -/
def runWaiter (during : List WaiterEvent) (actionThrows : Bool)
    (after : List WaiterEvent) : WaiterState :=
  let s := during.foldl waiterStep waiterInit
  if actionThrows then s.dispose
  else
    let s := if s.requests.isEmpty && !s.frameNavigated then s.resolve .drain else s
    let s := after.foldl waiterStep s
    s.dispose

/-- The waiter's resolution invariant: the barrier is resolved exactly when
a reason was recorded, and a drain resolution can only have happened at a
moment when the in-flight request set was empty. -/
def WaiterInv (s : WaiterState) : Prop :=
  (s.barrierResolved = true ↔ s.resolveReason.isSome = true) ∧
  (s.resolveReason = some .drain → s.requestsAtResolve = some [])

/-! ## Concrete fixtures used by witnesses -/

/-- A registry with three tabs, the middle one current, and modal states on
two of them. -/
def tabsFixture : TabRegistry :=
  { tabs := [10, 20, 30]
    currentTab := some 20
    modalStates := [⟨"dialog", "d", 20⟩, ⟨"fileChooser", "f", 10⟩]
    handleOpen := true }

/-- Three requests issued during the action, finishing out of order. -/
def threeRequestsTrace : List WaiterEvent :=
  [.requestStarted 1, .requestStarted 2, .requestStarted 3,
   .requestFinished 2, .requestFinished 1, .requestFinished 3]

/-- A capture environment with a live context, a failing storage-state
read, one readable tab and one failing tab. -/
def captureFixture : CaptureEnv :=
  { contextOk := true
    storageStateResult := none
    tabResults := [some ("https://example.test/a", [("k", "v")]), none] }

/-- A config that selects the CDP strategy with a non-empty string that is
not a well-formed URL. -/
def cdpGarbageCfg : BrowserCfg :=
  { remoteEndpoint := .undefinedv, cdpEndpoint := .str "garbage", isolated := false }

/-! ## Theorems -/

/-- C9: `selectTab` is not atomic on error — for every 1-based index outside
`1..N`, it first overwrites the current-tab field with `undefined` and only
then throws on the `.page` dereference, so after the failed call the
previous current tab is lost. -/
theorem selectTab_loses_current_on_bad_index (s : TabRegistry) (index : Int)
    (h : index < 1 ∨ (s.tabs.length : Int) < index) :
    (selectTab s index).1.currentTab = none ∧
    ∃ msg, (selectTab s index).2 = JsOutcome.threw msg := by
  have hnone : jsIndex s.tabs (index - 1) = none := by
    rcases h with h | h
    · simp only [jsIndex, if_pos (by omega : index - 1 < 0)]
    · have hge : ¬index - 1 < 0 := by omega
      simp only [jsIndex, if_neg hge]
      apply List.get?_eq_none.mpr
      omega

  simp [selectTab, hnone]

/-- C9 witness: on a registry with two tabs, `selectTab 3` clears the
current tab and throws. -/
theorem selectTab_loses_current_on_bad_index_witness :
    ((3 : Int) < 1 ∨ (([10, 20] : List Nat).length : Int) < 3) ∧
    (selectTab { tabs := [10, 20], currentTab := some 10, modalStates := [],
                 handleOpen := true } 3).1.currentTab = none := by
  refine ⟨by decide, ?_⟩
  exact (selectTab_loses_current_on_bad_index
    { tabs := [10, 20], currentTab := some 10, modalStates := [], handleOpen := true }
    3 (by decide)).1

/-- C10: `waitForTimeout(time)` honors the requested duration only when
there is no current tab or a dialog-type modal state blocks script;
otherwise it performs a fixed 1000-unit in-page wait, independent of the
argument. -/
theorem waitForTimeout_fixed_wait (s : TabRegistry) (time : Int) :
    ((s.currentTab = none ∨ javaScriptBlocked s.modalStates = true) →
        waitForTimeout s time = WaitAction.processWait time) ∧
    (s.currentTab ≠ none → javaScriptBlocked s.modalStates = false →
        waitForTimeout s time = WaitAction.inPageWait 1000 ∧
        ∀ time2 : Int, waitForTimeout s time = waitForTimeout s time2) := by
  constructor
  · intro h
    simp only [waitForTimeout, if_pos h]
  · intro h1 h2
    have hcond : ¬(s.currentTab = none ∨ javaScriptBlocked s.modalStates) := by
      simp [h1, h2]
    constructor
    · simp only [waitForTimeout, if_neg hcond]
    · intro time2
      simp only [waitForTimeout, if_neg hcond]

/-- C10 witness: with an open unblocked tab, waits of 5 and 9999 are the
same fixed in-page wait. -/
theorem waitForTimeout_fixed_wait_witness :
    waitForTimeout { tabs := [1], currentTab := some 1, modalStates := [],
                     handleOpen := true } 5 = WaitAction.inPageWait 1000 ∧
    waitForTimeout { tabs := [1], currentTab := some 1, modalStates := [],
                     handleOpen := true } 5 =
      waitForTimeout { tabs := [1], currentTab := some 1, modalStates := [],
                       handleOpen := true } 9999 := by
  have h := (waitForTimeout_fixed_wait
    { tabs := [1], currentTab := some 1, modalStates := [], handleOpen := true } 5).2
    (by decide) (by decide)
  exact ⟨h.1, h.2 9999⟩

/-- C5: whatever part of restoration fails, `_restoreState` leaves the
pending snapshot slot empty when it returns, so a snapshot is never applied
twice. -/
theorem restoreState_clears_snapshot (c : RestoreCoord) (env : RestoreEnv)
    (nextPageId : Nat) :
    (restoreState c env nextPageId).1.savedState = none := by
  rcases hc : c.savedState with _ | saved
  · simp [restoreState, hc]
  · simp [restoreState, hc]

/-- C3: closing the page at 0-based position `index` while it is current
makes the tab now at `min(index, remaining-1)` current (or no tab when the
registry became empty), and drops every modal state owned by the closed
tab. -/
theorem onPageClosed_current_tab (s : TabRegistry) (closed index : Nat)
    (hidx : s.tabs.indexOf? closed = some index)
    (hcur : s.currentTab = some closed) :
    (onPageClosed s closed).tabs = s.tabs.eraseIdx index ∧
    ((onPageClosed s closed).tabs.length = 0 → (onPageClosed s closed).currentTab = none) ∧
    (0 < (onPageClosed s closed).tabs.length →
        (onPageClosed s closed).currentTab =
          (onPageClosed s closed).tabs.get?
            (min index ((onPageClosed s closed).tabs.length - 1))) ∧
    (∀ st ∈ (onPageClosed s closed).modalStates, st.tab ≠ closed) := by
  have hstep : onPageClosed s closed =
      (let tabs := s.tabs.eraseIdx index
       let current := jsIndex tabs (min (index : Int) ((tabs.length : Int) - 1))
       let s' : TabRegistry :=
         { tabs := tabs, currentTab := current,
           modalStates := s.modalStates.filter (fun st => st.tab ≠ closed),
           handleOpen := s.handleOpen }
       if tabs.length = 0 then s'.closeHandle else s') := by
    simp only [onPageClosed, hidx, hcur, if_pos]
  have h1 : (onPageClosed s closed).tabs = s.tabs.eraseIdx index := by
    rw [hstep]; dsimp only; split <;> rfl
  have h2 : (onPageClosed s closed).currentTab
      = jsIndex (s.tabs.eraseIdx index)
          (min (index : Int) (((s.tabs.eraseIdx index).length : Int) - 1)) := by
    rw [hstep]; dsimp only; split <;> rfl
  have h3 : (onPageClosed s closed).modalStates
      = s.modalStates.filter (fun st => st.tab ≠ closed) := by
    rw [hstep]; dsimp only; split <;> rfl
  refine ⟨h1, ?_, ?_, ?_⟩
  · intro hlen
    rw [h1] at hlen
    rw [h2]
    have hneg : min (index : Int) (((s.tabs.eraseIdx index).length : Int) - 1) < 0 := by
      omega
    simp [jsIndex, hneg]
  · intro hlen
    rw [h1] at hlen
    rw [h2, h1]
    have hnneg : ¬ min (index : Int) (((s.tabs.eraseIdx index).length : Int) - 1) < 0 := by
      omega
    have htoNat : (min (index : Int) (((s.tabs.eraseIdx index).length : Int) - 1)).toNat
        = min index ((s.tabs.eraseIdx index).length - 1) := by
      omega
    simp only [jsIndex, if_neg hnneg, htoNat]
  · intro st hst
    rw [h3] at hst
    have := List.of_mem_filter hst
    simpa using this

/-- C3 witness: in `tabsFixture`, closing current tab 20 (position 1)
shifts the current tab to the one now in slot `min 1 (remaining-1)` and
drops tab 20's modal state. -/
theorem onPageClosed_current_tab_witness :
    (tabsFixture.tabs.indexOf? 20 = some 1 ∧ tabsFixture.currentTab = some 20) ∧
    (onPageClosed tabsFixture 20).tabs = tabsFixture.tabs.eraseIdx 1 ∧
    (0 < (onPageClosed tabsFixture 20).tabs.length →
        (onPageClosed tabsFixture 20).currentTab =
          (onPageClosed tabsFixture 20).tabs.get?
            (min 1 ((onPageClosed tabsFixture 20).tabs.length - 1))) :=
  ⟨⟨by decide, by decide⟩,
   (onPageClosed_current_tab tabsFixture 20 1 (by decide) (by decide)).1,
   (onPageClosed_current_tab tabsFixture 20 1 (by decide) (by decide)).2.2.1⟩

/-- Calls to `_ensureBrowserContext` while a creation future is memoized all
return that future and leave the state unchanged. -/
theorem ensureCalls_memoized (n : Nat) :
    ∀ (s : HandleState) (p : Nat), s.browserContextPromise = some p →
      ensureCalls s n = (List.replicate n p, s) := by
  induction n with
  | zero => intro s p _; rfl
  | succ n ih =>
    intro s p h
    have he : ensureBrowserContext s = (p, s) := by
      unfold ensureBrowserContext
      rw [h]
    simp [ensureCalls, he, ih s p h, List.replicate_succ]

/-- C1: `_ensureBrowserContext` is single-flight with retry-after-failure:
while a creation future is memoized every caller receives it and no second
creation starts; `n` concurrent callers from the empty state trigger exactly
one creation; a failure of the memoized future clears the memo (only if it
has not been replaced), and the next call then starts a fresh creation. -/
theorem ensureBrowserContext_single_flight :
    (∀ (s : HandleState) (p : Nat), s.browserContextPromise = some p →
        ensureBrowserContext s = (p, s)) ∧
    (∀ (s : HandleState) (p n : Nat), s.browserContextPromise = some p →
        ensureCalls s n = (List.replicate n p, s)) ∧
    (∀ (s : HandleState) (n : Nat), s.browserContextPromise = none →
        (ensureCalls s (n + 1)).1 = List.replicate (n + 1) s.nextId ∧
        (ensureCalls s (n + 1)).2.launches = s.launches + 1) ∧
    (∀ (s : HandleState) (p : Nat), s.browserContextPromise = some p →
        (creationFailed s p).browserContextPromise = none) ∧
    (∀ (s : HandleState) (p q : Nat), s.browserContextPromise = some q → q ≠ p →
        creationFailed s p = s) ∧
    (∀ (s : HandleState) (p : Nat), s.browserContextPromise = some p →
        (ensureBrowserContext (creationFailed s p)).2.launches = s.launches + 1 ∧
        (ensureBrowserContext (creationFailed s p)).2.browserContextPromise
          = some s.nextId) := by
  refine ⟨?_, ?_, ?_, ?_, ?_, ?_⟩
  · intro s p h
    unfold ensureBrowserContext
    rw [h]
  · intro s p n h
    exact ensureCalls_memoized n s p h
  · intro s n h
    have he : ensureBrowserContext s =
        (s.nextId, { browserContextPromise := some s.nextId, nextId := s.nextId + 1,
                     launches := s.launches + 1 }) := by
      unfold ensureBrowserContext
      rw [h]
    have hrec := ensureCalls_memoized n
      { browserContextPromise := some s.nextId, nextId := s.nextId + 1,
        launches := s.launches + 1 } s.nextId rfl
    constructor
    · simp [ensureCalls, he, hrec, List.replicate_succ]
    · simp [ensureCalls, he, hrec]
  · intro s p h
    unfold creationFailed
    rw [if_pos h]
  · intro s p q h hne
    unfold creationFailed
    rw [if_neg]
    rw [h]
    simp
    exact fun hq => hne hq
  · intro s p h
    have hcleared : creationFailed s p =
        { s with browserContextPromise := none } := by
      unfold creationFailed
      rw [if_pos h]
    rw [hcleared]
    unfold ensureBrowserContext
    constructor <;> rfl

/-- C1 witness: with future 5 memoized, three callers all get 5 with no new
launch; after 5 fails the memo is empty and the next call launches anew. -/
theorem ensureBrowserContext_single_flight_witness :
    (({ browserContextPromise := some 5, nextId := 6, launches := 1 }
        : HandleState).browserContextPromise = some 5) ∧
    ensureCalls { browserContextPromise := some 5, nextId := 6, launches := 1 } 3
      = (List.replicate 3 5, { browserContextPromise := some 5, nextId := 6, launches := 1 }) ∧
    (creationFailed { browserContextPromise := some 5, nextId := 6, launches := 1 }
        5).browserContextPromise = none ∧
    (ensureBrowserContext (creationFailed
        { browserContextPromise := some 5, nextId := 6, launches := 1 } 5)).2.launches = 2 :=
  ⟨by decide,
   ensureBrowserContext_single_flight.2.1
     { browserContextPromise := some 5, nextId := 6, launches := 1 } 5 3 (by decide),
   ensureBrowserContext_single_flight.2.2.2.1
     { browserContextPromise := some 5, nextId := 6, launches := 1 } 5 (by decide),
   (ensureBrowserContext_single_flight.2.2.2.2.2
     { browserContextPromise := some 5, nextId := 6, launches := 1 } 5 (by decide)).1⟩

/-- `dialogShown` appends exactly one dialog-typed modal entry. -/
theorem dialogShown_modalStates (st : RaceState) (tab : Nat) (ty msg : String) :
    (dialogShown st tab ty msg).modalStates
      = st.modalStates ++ [⟨"dialog",
          "\"" ++ ty ++ "\" dialog with message \"" ++ msg ++ "\"", tab⟩] := by
  unfold dialogShown setModalState
  cases st.pendingAction <;> rfl

/-- `dialogShown` resolves the pending signal when one is outstanding. -/
theorem dialogShown_pendingAction (st : RaceState) (tab : Nat) (ty msg : String) :
    (dialogShown st tab ty msg).pendingAction
      = match st.pendingAction with
        | some _ => some ⟨true⟩
        | none => none := by
  unfold dialogShown setModalState
  cases st.pendingAction <;> rfl

/-- The dialog-delivery fold appends one modal entry per reported dialog. -/
theorem raceFold_modalStates (events : List DialogEvent) :
    ∀ st : RaceState,
      (events.foldl (fun st e => dialogShown st e.tab e.dtype e.dmsg) st).modalStates
        = st.modalStates ++ events.map dialogEntry := by
  induction events with
  | nil => intro st; simp
  | cons e rest ih =>
    intro st
    simp only [List.foldl_cons, List.map_cons, ih, dialogShown_modalStates]
    simp [dialogEntry]

/-- Once the pending signal is resolved it stays resolved across further
dialog deliveries. -/
theorem raceFold_pending_resolved (events : List DialogEvent) :
    ∀ st : RaceState, st.pendingAction = some ⟨true⟩ →
      (events.foldl (fun st e => dialogShown st e.tab e.dtype e.dmsg) st).pendingAction
        = some ⟨true⟩ := by
  induction events with
  | nil => intro st h; simpa using h
  | cons e rest ih =>
    intro st h
    simp only [List.foldl_cons]
    exact ih _ (by rw [dialogShown_pendingAction, h])

/-- C2: during a raced action, each reported dialog pushes exactly one
dialog-typed modal state tagged with the reporting tab and resolves the
pending signal; after the race settles — action resolved, action rejected,
or dialog won — the pending-action slot is cleared. -/
theorem raceAgainstModalDialogs_spec (s : RaceState) (events : List DialogEvent)
    (outcome : RaceOutcome) :
    (raceAgainstModalDialogs s events outcome).pendingAction = none ∧
    (raceAgainstModalDialogs s events outcome).modalStates
      = s.modalStates ++ events.map dialogEntry ∧
    (events ≠ [] → (raceInFlight s events).pendingAction = some ⟨true⟩) := by
  refine ⟨rfl, ?_, ?_⟩
  · show (raceInFlight s events).modalStates = _
    unfold raceInFlight
    rw [raceFold_modalStates]
  · intro hne
    rcases events with _ | ⟨e, rest⟩
    · exact absurd rfl hne
    · unfold raceInFlight
      simp only [List.foldl_cons]
      apply raceFold_pending_resolved
      rw [dialogShown_pendingAction]

/-- C2 witness: a single dialog during the race pushes one modal state,
resolves the signal, and the slot is cleared afterwards. -/
theorem raceAgainstModalDialogs_spec_witness :
    (([⟨7, "alert", "hi"⟩] : List DialogEvent) ≠ []) ∧
    (raceAgainstModalDialogs ⟨[], none⟩ [⟨7, "alert", "hi"⟩]
        RaceOutcome.dialogWon).pendingAction = none ∧
    (raceAgainstModalDialogs ⟨[], none⟩ [⟨7, "alert", "hi"⟩]
        RaceOutcome.dialogWon).modalStates
      = [] ++ [⟨7, "alert", "hi"⟩].map dialogEntry ∧
    (raceInFlight ⟨[], none⟩ [⟨7, "alert", "hi"⟩]).pendingAction = some ⟨true⟩ :=
  ⟨by decide,
   (raceAgainstModalDialogs_spec ⟨[], none⟩ [⟨7, "alert", "hi"⟩] RaceOutcome.dialogWon).1,
   (raceAgainstModalDialogs_spec ⟨[], none⟩ [⟨7, "alert", "hi"⟩] RaceOutcome.dialogWon).2.1,
   (raceAgainstModalDialogs_spec ⟨[], none⟩ [⟨7, "alert", "hi"⟩]
       RaceOutcome.dialogWon).2.2 (by decide)⟩

/-- C6: `_captureCurrentState` is best-effort and never throws: it returns
nothing exactly when acquiring the context fails; with a live context and
zero tabs it returns a snapshot with an empty tab list; a storage-state
read failure leaves that field empty instead of aborting; a per-tab failure
records a blank-page placeholder instead of aborting. -/
theorem captureCurrentState_best_effort (env : CaptureEnv) (currentIdx : Option Nat) :
    ((captureCurrentState env currentIdx = none) ↔ env.contextOk = false) ∧
    (env.contextOk = true → env.tabResults = [] →
        captureCurrentState env currentIdx
          = some { storageState := env.storageStateResult, sessionStorage := [],
                   tabs := [], currentTabIndex := 0 }) ∧
    (env.contextOk = true → env.storageStateResult = none →
        ∃ st, captureCurrentState env currentIdx = some st ∧ st.storageState = none) ∧
    (env.contextOk = true → ∀ i, env.tabResults.get? i = some none →
        ∃ st, captureCurrentState env currentIdx = some st ∧
          st.tabs.get? i = some ⟨"about:blank", []⟩) := by
  cases hc : env.contextOk with
  | false =>
    refine ⟨by simp [captureCurrentState, hc], ?_, ?_, ?_⟩ <;> intro h <;> simp_all
  | true =>
    have hcap : captureCurrentState env currentIdx = some (captureBody env currentIdx) := by
      simp [captureCurrentState, hc]
    refine ⟨by simp [hcap], ?_, ?_, ?_⟩
    · intro _ htabs
      rw [hcap]
      simp [captureBody, htabs]
    · intro _ hstore
      exact ⟨captureBody env currentIdx, hcap, hstore⟩
    · intro _ i hi
      refine ⟨captureBody env currentIdx, hcap, ?_⟩
      have : (captureBody env currentIdx).tabs.get? i
          = (env.tabResults.get? i).map fun r =>
              match r with
              | some (url, ss) => SavedTab.mk url ss
              | none => SavedTab.mk "about:blank" [] := by
        simp [captureBody, List.get?_map]
      rw [this, hi]
      rfl

/-- C6 witness: in `captureFixture` (live context, failing storage read,
one good and one failing tab) capture returns a snapshot whose storage
field is empty and whose second tab is the blank-page placeholder. -/
theorem captureCurrentState_best_effort_witness :
    (captureFixture.contextOk = true ∧ captureFixture.storageStateResult = none ∧
     captureFixture.tabResults.get? 1 = some none) ∧
    (∃ st, captureCurrentState captureFixture (some 0) = some st ∧
        st.storageState = none) ∧
    (∃ st, captureCurrentState captureFixture (some 0) = some st ∧
        st.tabs.get? 1 = some ⟨"about:blank", []⟩) :=
  ⟨⟨by decide, by decide, by decide⟩,
   (captureCurrentState_best_effort captureFixture (some 0)).2.2.1 (by decide) (by decide),
   (captureCurrentState_best_effort captureFixture (some 0)).2.2.2 (by decide) 1 (by decide)⟩

/-- C7 counterexample: the claim fails on the CDP path. `cdpGarbageCfg`
selects the debug-protocol endpoint with the malformed value `"garbage"`
(a string that is not a well-formed URL), yet `_createBrowserContext`
reaches `connectOverCDP` — a network attempt — with no prior error. -/
theorem createBrowserContext_cdp_no_url_validation :
    cdpGarbageCfg.cdpEndpoint.truthy = true ∧
    wellFormedEndpoint cdpGarbageCfg.cdpEndpoint = false ∧
    createBrowserContext cdpGarbageCfg = CreateResult.connectCDP "garbage" := by
  refine ⟨by decide, by decide, by decide⟩

/-- C7 amended: for a remote endpoint, every malformed value (non-string,
blank, or not parsing as a URL) fails fast with a descriptive error before
any connect; for a CDP endpoint only non-string or blank values fail fast —
any other string, well-formed or not, is passed straight to
`connectOverCDP`. -/
theorem createBrowserContext_endpoint_checks (cfg : BrowserCfg) :
    (cfg.remoteEndpoint.truthy = true → wellFormedEndpoint cfg.remoteEndpoint = false →
        ∃ msg, createBrowserContext cfg = CreateResult.error msg) ∧
    (cfg.remoteEndpoint.truthy = false → cfg.cdpEndpoint.truthy = true →
        cfg.cdpEndpoint.isStr = false →
        ∃ msg, createBrowserContext cfg = CreateResult.error msg) ∧
    (∀ str, cfg.remoteEndpoint.truthy = false → cfg.cdpEndpoint = .str str →
        str ≠ "" → jsTrim str = "" →
        ∃ msg, createBrowserContext cfg = CreateResult.error msg) ∧
    (∀ str, cfg.remoteEndpoint.truthy = false → cfg.cdpEndpoint = .str str →
        str ≠ "" → jsTrim str ≠ "" →
        createBrowserContext cfg = CreateResult.connectCDP str) := by
  refine ⟨?_, ?_, ?_, ?_⟩
  · intro htr hwf
    cases hre : cfg.remoteEndpoint with
    | str s =>
      rw [hre] at htr hwf
      simp only [wellFormedEndpoint] at hwf
      by_cases hempty : jsTrim s = ""
      · refine ⟨"Invalid remote endpoint", ?_⟩
        unfold createBrowserContext
        rw [hre, if_pos htr]
        dsimp only
        rw [if_pos hempty]
      · refine ⟨"Invalid URL", ?_⟩
        unfold createBrowserContext
        rw [hre, if_pos htr]
        dsimp only
        rw [if_neg hempty, if_neg (by simp [hwf])]
    | num n =>
      rw [hre] at htr
      exact ⟨"Invalid remote endpoint", by unfold createBrowserContext; rw [hre, if_pos htr]⟩
    | boolean b =>
      rw [hre] at htr
      exact ⟨"Invalid remote endpoint", by unfold createBrowserContext; rw [hre, if_pos htr]⟩
    | nullv => rw [hre] at htr; exact absurd htr (by decide)
    | undefinedv => rw [hre] at htr; exact absurd htr (by decide)
    | objv =>
      rw [hre] at htr
      exact ⟨"Invalid remote endpoint", by unfold createBrowserContext; rw [hre, if_pos htr]⟩
  · intro hre htr hstr
    have hre' : ¬(cfg.remoteEndpoint.truthy = true) := by simp [hre]
    cases hc : cfg.cdpEndpoint with
    | str s => rw [hc] at hstr; exact absurd hstr (by simp [JSVal.isStr])
    | num n =>
      rw [hc] at htr
      exact ⟨"Invalid CDP endpoint", by
        unfold createBrowserContext; rw [if_neg hre', hc, if_pos htr]⟩
    | boolean b =>
      rw [hc] at htr
      exact ⟨"Invalid CDP endpoint", by
        unfold createBrowserContext; rw [if_neg hre', hc, if_pos htr]⟩
    | nullv => rw [hc] at htr; exact absurd htr (by decide)
    | undefinedv => rw [hc] at htr; exact absurd htr (by decide)
    | objv =>
      rw [hc] at htr
      exact ⟨"Invalid CDP endpoint", by
        unfold createBrowserContext; rw [if_neg hre', hc, if_pos htr]⟩
  · intro str hre hc hne htrim
    have hre' : ¬(cfg.remoteEndpoint.truthy = true) := by simp [hre]
    have htr : (JSVal.str str).truthy = true := by simp [JSVal.truthy, hne]
    refine ⟨"Invalid CDP endpoint", ?_⟩
    unfold createBrowserContext
    rw [if_neg hre', hc, if_pos htr]
    dsimp only
    rw [if_pos htrim]
  · intro str hre hc hne htrim
    have hre' : ¬(cfg.remoteEndpoint.truthy = true) := by simp [hre]
    have htr : (JSVal.str str).truthy = true := by simp [JSVal.truthy, hne]
    unfold createBrowserContext
    rw [if_neg hre', hc, if_pos htr]
    dsimp only
    rw [if_neg htrim]

/-- C7 amended witness: a whitespace CDP endpoint fails fast; the
non-URL string `"garbage"` is handed to the CDP connect call. -/
theorem createBrowserContext_endpoint_checks_witness :
    ((JSVal.str " ").truthy = true ∧ jsTrim " " = "") ∧
    (∃ msg, createBrowserContext
        { remoteEndpoint := .undefinedv, cdpEndpoint := .str " ", isolated := false }
        = CreateResult.error msg) ∧
    createBrowserContext cdpGarbageCfg = CreateResult.connectCDP "garbage" :=
  ⟨⟨by decide, by decide⟩,
   (createBrowserContext_endpoint_checks
      { remoteEndpoint := .undefinedv, cdpEndpoint := .str " ", isolated := false }).2.2.1
      " " (by decide) rfl (by decide) (by decide),
   (createBrowserContext_endpoint_checks cdpGarbageCfg).2.2.2
      "garbage" (by decide) rfl (by decide) (by decide)⟩

/-- Decimal digit characters are never a newline. -/
theorem digitChar_ne_newline (d : Nat) : Nat.digitChar d ≠ '\n' := by
  rcases lt_or_ge d 16 with h | h
  · interval_cases d <;> decide
  · have hstar : Nat.digitChar d = '*' := by
      unfold Nat.digitChar
      repeat rw [if_neg (by omega)]
    rw [hstar]
    decide

/-- `Nat.toDigitsCore` never introduces a newline. -/
theorem toDigitsCore_ne_newline (b : Nat) :
    ∀ (fuel n : Nat) (ds : List Char), (∀ c ∈ ds, c ≠ '\n') →
      ∀ c ∈ Nat.toDigitsCore b fuel n ds, c ≠ '\n' := by
  intro fuel
  induction fuel with
  | zero =>
    intro n ds h c hc
    rw [Nat.toDigitsCore] at hc
    exact h c hc
  | succ fuel ih =>
    intro n ds h c hc
    rw [Nat.toDigitsCore] at hc
    have hds : ∀ x ∈ Nat.digitChar (n % b) :: ds, x ≠ '\n' := by
      intro x hx
      rcases List.mem_cons.mp hx with h1 | h2
      · rw [h1]; exact digitChar_ne_newline _
      · exact h x h2
    split at hc
    · exact hds c hc
    · exact ih (n / b) _ hds c hc

/-- A decimal numeral contains no newline. -/
theorem repr_count_newline (n : Nat) : (Nat.repr n).toList.count '\n' = 0 := by
  apply List.count_eq_zero.mpr
  intro hmem
  have : ∀ c ∈ Nat.toDigits 10 n, c ≠ '\n' :=
    toDigitsCore_ne_newline 10 (n + 1) n [] (by intro c hc; cases hc)
  have hrepr : (Nat.repr n).toList = Nat.toDigits 10 n := rfl
  rw [hrepr] at hmem
  exact this '\n' hmem rfl

/-- Newlines in a concatenation. -/
theorem count_newline_append (a b : String) :
    (a ++ b).toList.count '\n' = a.toList.count '\n' + b.toList.count '\n' := by
  show (a ++ b).data.count '\n' = a.data.count '\n' + b.data.count '\n'
  rw [String.data_append, List.count_append]

/-- A rendered tab line contains no newline when its title and URL do not. -/
theorem renderTabLine_count_newline (i : Nat) (tab : TabInfo) (b : Bool)
    (ht : tab.title.toList.count '\n' = 0) (hu : tab.url.toList.count '\n' = 0) :
    (renderTabLine i tab b).toList.count '\n' = 0 := by
  unfold renderTabLine
  simp only [count_newline_append, repr_count_newline, ht, hu]
  cases b <;> decide

/-- `join('\n')` over newline-free elements produces one line per element. -/
theorem joinLines_count (l : List String) (h : ∀ x ∈ l, x.toList.count '\n' = 0)
    (hne : l ≠ []) : (joinLines l).toList.count '\n' = l.length - 1 := by
  induction l with
  | nil => exact absurd rfl hne
  | cons a rest ih =>
    cases rest with
    | nil =>
      show (joinLines [a]).toList.count '\n' = 0
      rw [show joinLines [a] = a from rfl]
      exact h a (List.mem_cons_self a [])
    | cons b rs =>
      have hrest : ∀ x ∈ b :: rs, x.toList.count '\n' = 0 := by
        intro x hx
        exact h x (List.mem_cons_of_mem a hx)
      have hstep : joinLines (a :: b :: rs) = a ++ "\n" ++ joinLines (b :: rs) := rfl
      rw [hstep, count_newline_append, count_newline_append,
          h a (List.mem_cons_self a _), ih hrest (by simp)]
      have h1 : ("\n" : String).toList.count '\n' = 1 := by decide
      rw [h1]
      simp only [List.length_cons]
      omega

/-- Every line of `listTabsLines` is newline-free when titles and URLs are. -/
theorem listTabsLines_no_newline (tabs : List TabInfo) (current : Option Nat)
    (h : ∀ t ∈ tabs, t.title.toList.count '\n' = 0 ∧ t.url.toList.count '\n' = 0) :
    ∀ x ∈ listTabsLines tabs current, x.toList.count '\n' = 0 := by
  intro x hx
  rcases List.mem_cons.mp hx with h1 | h2
  · rw [h1]; decide
  · rcases List.mem_map.mp h2 with ⟨p, hp, hline⟩
    have hmem : p.2 ∈ tabs := by
      have : p.2 ∈ tabs.enum.map Prod.snd := List.mem_map_of_mem Prod.snd hp
      rwa [List.enum_map_snd] at this
    rcases h p.2 hmem with ⟨ht, hu⟩
    rw [← hline]
    exact renderTabLine_count_newline p.1 p.2 _ ht hu

/-- Nodup ids and a present current id pin the marked tab uniquely. -/
theorem filter_current_length (curId : Nat) :
    ∀ tabs : List TabInfo, curId ∈ tabs.map TabInfo.id → (tabs.map TabInfo.id).Nodup →
      (tabs.filter fun t => some curId = some t.id).length = 1 := by
  intro tabs
  induction tabs with
  | nil => intro h _; cases h
  | cons t rest ih =>
    intro hmem hnd
    rw [List.map_cons] at hmem hnd
    have hnd2 := List.nodup_cons.mp hnd
    by_cases heq : curId = t.id
    · have hrest : (rest.filter fun x => some curId = some x.id) = [] := by
        apply List.filter_eq_nil.mpr
        intro x hx
        simp only [Option.some.injEq, decide_eq_true_eq]
        intro hxid
        exact hnd2.1 (by rw [heq] at hxid; rw [hxid]; exact List.mem_map_of_mem TabInfo.id hx)
      rw [List.filter_cons, if_pos (by simp [heq]), hrest]
      rfl
    · have hmem2 : curId ∈ rest.map TabInfo.id := by
        rcases List.mem_cons.mp hmem with h1 | h2
        · exact absurd h1 heq
        · exact h2
      rw [List.filter_cons, if_neg (by simp [heq])]
      exact ih hmem2 hnd2.2

/-- C8 counterexample: the claim undercounts by one — on a registry with a
single tab the rendering has two lines (the `'### Open tabs'` header plus
the tab line), not one. -/
theorem listTabsMarkdown_line_count_counterexample :
    (([⟨0, "t", "u"⟩] : List TabInfo)).length = 1 ∧
    numLines (listTabsMarkdown [⟨0, "t", "u"⟩] (some 0)) = 2 := by
  constructor
  · rfl
  · rfl

/-- C8 amended: on zero tabs `listTabsMarkdown` returns the no-tabs
sentinel; on `N ≥ 1` tabs it returns the `'### Open tabs'` header followed
by `N` lines (so `N + 1` lines in total, given newline-free titles and
URLs), where the line for the tab at position `i` renders the 1-based index
`i+1`, the title and the URL, carrying the current marker exactly when that
tab is the current one — and with distinct tab identities and the current
tab present, exactly one tab is marked. -/
theorem listTabsMarkdown_spec (tabs : List TabInfo) (current : Option Nat) :
    (tabs = [] → listTabsMarkdown tabs current = "### No tabs open") ∧
    (tabs ≠ [] →
        (∀ t ∈ tabs, t.title.toList.count '\n' = 0 ∧ t.url.toList.count '\n' = 0) →
        numLines (listTabsMarkdown tabs current) = tabs.length + 1) ∧
    ((listTabsLines tabs current).length = tabs.length + 1) ∧
    ((listTabsLines tabs current).head? = some "### Open tabs") ∧
    (∀ i tab, tabs.get? i = some tab →
        (listTabsLines tabs current).get? (i + 1)
          = some (renderTabLine i tab (current = some tab.id))) ∧
    (∀ curId, current = some curId → curId ∈ tabs.map TabInfo.id →
        (tabs.map TabInfo.id).Nodup →
        (tabs.filter fun t => current = some t.id).length = 1) := by
  refine ⟨?_, ?_, ?_, ?_, ?_, ?_⟩
  · intro h
    simp [listTabsMarkdown, h]
  · intro hne h
    have hlen0 : tabs.length ≠ 0 := by
      intro h0
      exact hne (List.length_eq_zero.mp h0)
    unfold listTabsMarkdown numLines
    rw [if_neg hlen0]
    rw [joinLines_count _ (listTabsLines_no_newline tabs current h) (by simp [listTabsLines])]
    simp [listTabsLines]
  · simp [listTabsLines]
  · rfl
  · intro i tab hget
    unfold listTabsLines
    rw [List.get?_cons_succ, List.get?_map]
    have henum : tabs.enum.get? i = some (i, tab) := by
      rw [List.get?_enum, hget]
      rfl
    rw [henum]
    rfl
  · intro curId hcur hmem hnd
    rw [hcur]
    exact filter_current_length curId tabs hmem hnd

/-- C8 amended witness: two tabs with the second current — three lines,
with the marker exactly on the second tab's line. -/
theorem listTabsMarkdown_spec_witness :
    (([⟨1, "A", "http://a"⟩, ⟨2, "B", "http://b"⟩] : List TabInfo) ≠ []) ∧
    numLines (listTabsMarkdown [⟨1, "A", "http://a"⟩, ⟨2, "B", "http://b"⟩] (some 2)) = 3 ∧
    (listTabsLines [⟨1, "A", "http://a"⟩, ⟨2, "B", "http://b"⟩] (some 2)).get? 2
      = some (renderTabLine 1 ⟨2, "B", "http://b"⟩ (some 2 = some (2 : Nat))) ∧
    (([⟨1, "A", "http://a"⟩, ⟨2, "B", "http://b"⟩] : List TabInfo).filter
        fun t => (some 2 : Option Nat) = some t.id).length = 1 :=
  ⟨by decide,
   (listTabsMarkdown_spec [⟨1, "A", "http://a"⟩, ⟨2, "B", "http://b"⟩] (some 2)).2.1
     (by decide) (by decide),
   (listTabsMarkdown_spec [⟨1, "A", "http://a"⟩, ⟨2, "B", "http://b"⟩] (some 2)).2.2.2.2.1
     1 ⟨2, "B", "http://b"⟩ (by decide),
   (listTabsMarkdown_spec [⟨1, "A", "http://a"⟩, ⟨2, "B", "http://b"⟩] (some 2)).2.2.2.2.2
     2 rfl (by decide) (by decide)⟩

/-- `waitCallback` preserves the waiter invariant whenever a drain
resolution only happens with an empty request set. -/
theorem waiterInv_resolve (s : WaiterState) (r : ResolveReason) (hInv : WaiterInv s)
    (hr : r = .drain → s.requests = []) : WaiterInv (s.resolve r) := by
  unfold WaiterState.resolve
  split
  · exact hInv
  · refine ⟨by simp, ?_⟩
    intro hd
    have hrd : r = .drain := by
      simpa using hd
    show some s.requests = some []
    rw [hr hrd]

/-- `dispose` does not touch the resolution state. -/
theorem waiterInv_dispose (s : WaiterState) (h : WaiterInv s) : WaiterInv s.dispose := h

/-- Every engine event preserves the waiter invariant. -/
theorem waiterInv_step (s : WaiterState) (e : WaiterEvent) (h : WaiterInv s) :
    WaiterInv (waiterStep s e) := by
  cases e with
  | requestStarted id =>
    simp only [waiterStep]
    split
    · exact h
    · exact h
  | requestFinished id =>
    simp only [waiterStep]
    split
    · split
      · next hempty =>
        refine waiterInv_resolve _ _ h ?_
        intro _
        exact List.isEmpty_iff.mp hempty
      · exact h
    · exact h
  | frameNavigated isTop =>
    simp only [waiterStep]
    split
    · exact h
    · exact h
  | timeoutFired =>
    simp only [waiterStep]
    split
    · exact waiterInv_resolve _ _ (waiterInv_dispose s h) (fun hx => nomatch hx)
    · exact h
  | loadStateDone =>
    simp only [waiterStep]
    split
    · exact waiterInv_resolve _ _ h (fun hx => nomatch hx)
    · exact h

/-- The invariant holds along any event trace. -/
theorem waiterInv_foldl (events : List WaiterEvent) :
    ∀ s : WaiterState, WaiterInv s → WaiterInv (events.foldl waiterStep s) := by
  induction events with
  | nil => intro s h; exact h
  | cons e rest ih =>
    intro s h
    exact ih _ (waiterInv_step s e h)

/-- The invariant holds at the end of any full `waitForCompletion` run. -/
theorem runWaiter_inv (during : List WaiterEvent) (actionThrows : Bool)
    (after : List WaiterEvent) : WaiterInv (runWaiter during actionThrows after) := by
  have h0 : WaiterInv waiterInit := by
    constructor
    · simp [waiterInit]
    · intro hx
      simp [waiterInit] at hx
  have h1 := waiterInv_foldl during waiterInit h0
  cases actionThrows with
  | true => exact waiterInv_dispose _ h1
  | false =>
    apply waiterInv_dispose
    apply waiterInv_foldl
    dsimp only [runWaiter]
    split
    · next hcond =>
      refine waiterInv_resolve _ _ h1 ?_
      intro _
      exact List.isEmpty_iff.mp (Bool.and_elim_left hcond)
    · exact h1

/-- C4: the quiescence waiter resolves only by request-drain (and then the
in-flight set is empty at that moment), by the load event following a
top-level navigation, or by the fixed timeout; an action completing with
zero in-flight requests and no navigation resolves the barrier immediately;
a top-level navigation deregisters the listeners and clears the timer on
the spot and defers resolution to the load event; and on every exit path —
action success, action throw, or whatever events occurred — the three page
listeners are deregistered and the timer is cleared. -/
theorem waitForCompletion_spec (during after : List WaiterEvent) (actionThrows : Bool) :
    ((runWaiter during actionThrows after).listenersActive = false ∧
     (runWaiter during actionThrows after).timerActive = false) ∧
    ((runWaiter during actionThrows after).barrierResolved = true →
        (runWaiter during actionThrows after).resolveReason.isSome = true) ∧
    ((runWaiter during actionThrows after).resolveReason = some .drain →
        (runWaiter during actionThrows after).requestsAtResolve = some []) ∧
    ((List.foldl waiterStep waiterInit during).requests = [] →
     (List.foldl waiterStep waiterInit during).frameNavigated = false →
     (runWaiter during false []).barrierResolved = true) ∧
    (∀ s : WaiterState, s.listenersActive = true →
        (waiterStep s (.frameNavigated true)).listenersActive = false ∧
        (waiterStep s (.frameNavigated true)).timerActive = false ∧
        (waiterStep s (.frameNavigated true)).waitingForLoad = true ∧
        (waiterStep s (.frameNavigated true)).barrierResolved = s.barrierResolved) ∧
    (∀ s : WaiterState, s.waitingForLoad = true → s.barrierResolved = false →
        (waiterStep s .loadStateDone).barrierResolved = true ∧
        (waiterStep s .loadStateDone).resolveReason = some .navigation) ∧
    (∀ s : WaiterState, s.timerActive = true → s.barrierResolved = false →
        (waiterStep s .timeoutFired).barrierResolved = true ∧
        (waiterStep s .timeoutFired).resolveReason = some .timeout) := by
  refine ⟨?_, (runWaiter_inv during actionThrows after).1.mp,
          (runWaiter_inv during actionThrows after).2, ?_, ?_, ?_, ?_⟩
  · cases actionThrows <;> exact ⟨rfl, rfl⟩
  · intro hreq hnav
    have hcond : ((List.foldl waiterStep waiterInit during).requests.isEmpty &&
        !(List.foldl waiterStep waiterInit during).frameNavigated) = true := by
      rw [hreq, hnav]
      rfl
    unfold runWaiter
    rw [if_neg (by simp : ¬(false = true))]
    dsimp only
    rw [if_pos hcond]
    show (((List.foldl waiterStep waiterInit during).resolve .drain).dispose).barrierResolved
        = true
    unfold WaiterState.resolve
    split
    · next hres => exact hres
    · rfl
  · intro s hs
    simp [waiterStep, hs, WaiterState.dispose]
  · intro s hw hb
    simp [waiterStep, hw, WaiterState.resolve, hb]
  · intro s ht hb
    simp [waiterStep, ht, WaiterState.dispose, WaiterState.resolve, hb]

/-- C4 witness: three requests finishing out of order drain the set, the
barrier resolves by drain with nothing in flight at that moment, and the
listeners and timer are gone afterwards. -/
theorem waitForCompletion_spec_witness :
    ((runWaiter threeRequestsTrace false []).resolveReason = some ResolveReason.drain ∧
     (List.foldl waiterStep waiterInit threeRequestsTrace).requests = [] ∧
     (List.foldl waiterStep waiterInit threeRequestsTrace).frameNavigated = false) ∧
    (runWaiter threeRequestsTrace false []).requestsAtResolve = some [] ∧
    (runWaiter threeRequestsTrace false []).listenersActive = false ∧
    (runWaiter threeRequestsTrace false []).timerActive = false ∧
    (runWaiter threeRequestsTrace false []).barrierResolved = true :=
  ⟨⟨by decide, by decide, by decide⟩,
   (waitForCompletion_spec threeRequestsTrace [] false).2.2.1 (by decide),
   (waitForCompletion_spec threeRequestsTrace [] false).1.1,
   (waitForCompletion_spec threeRequestsTrace [] false).1.2,
   (waitForCompletion_spec threeRequestsTrace [] false).2.2.2.1 (by decide) (by decide)⟩

end PlaywrightMCP
